import Mathlib

/-!
# One-Click captive portal

A shallow embedding of the two responders of `main/main.c`:

* the DNS responder `dns_responder_task` (UDP port 53), which answers every
  datagram it receives with one address record, and
* the HTTP side: the route table registered by `start_webserver`, the handlers
  behind it, and the chunked file transfer `stream_file_zip`.

Buffers are maps from offsets to bytes with the bounds of the C arrays checked
on every store that the source does not itself bound; loops carry a fuel
argument and return `none` when it runs out.
-/

namespace OneClick

/-! ## Bytes and buffers -/

/-- One `uint8_t`. -/
abbrev Byte := Fin 256

/-- The contents of a byte buffer, by offset. Only offsets below the size of
the C array are meaningful; the bound is checked where the code writes. -/
abbrev Mem := Nat → Byte

/-- The statement `m[i] = b`. -/
def store (m : Mem) (i : Nat) (b : Byte) : Mem :=
  fun j => if j = i then b else m j

/-! ## config.h -/

/-- The value `const char *ip_str = "10.0.0.1"`. -/
def ip_str : String := "10.0.0.1"

/-- The value `const size_t CHUNK = 1460`. -/
def CHUNK : Nat := 1460

/-! ## DNS responder -/

/-- The size of `uint8_t req[512]`. -/
def REQ_SIZE : Nat := 512

/-- The size of `uint8_t resp[600]`. -/
def RESP_SIZE : Nat := 600

/-- Splits a character sequence at every dot. -/
def split_dots : List Char → List (List Char)
  | [] => [[]]
  | c :: cs =>
    if c = '.' then [] :: split_dots cs
    else
      match split_dots cs with
      | [] => [[c]]
      | w :: ws => (c :: w) :: ws

/-- One decimal field of a dotted quad: one to three digits, at most 255. -/
def parse_octet (cs : List Char) : Option Byte :=
  if cs = [] ∨ 3 < cs.length ∨ ¬ cs.all Char.isDigit then none
  else
    let v := cs.foldl (fun acc c => 10 * acc + (c.toNat - 48)) 0
    if h : v < 256 then some ⟨v, h⟩ else none

/-- The library call `inet_pton(AF_INET, src, &a)` on a dotted-decimal string:
`some` of the four address bytes in network order (the bytes of `a.s_addr` as
they lie in memory) when the call returns 1, `none` otherwise. The source only
ever passes `ip_str`. -/
def inet_pton (src : String) : Option (List Byte) :=
  match (split_dots src.toList).map parse_octet with
  | [some a, some b, some c, some d] => some [a, b, c, d]
  | _ => none

/-- The four bytes copied behind RDLENGTH: the parsed `ip_str`, or the bytes of
`htonl((192 << 24) | (168 << 16) | (4 << 8) | 1)` when parsing fails. -/
def answer_address : List Byte :=
  match inet_pton ip_str with
  | some a => a
  | none => [192, 168, 4, 1]

/-- The sixteen bytes stored from `out_pos` on: name pointer `C0 0C`, type A,
class IN, TTL 60, RDLENGTH 4 and the address. -/
def answer_record : List Byte :=
  [0xC0, 0x0C, 0x00, 0x01, 0x00, 0x01, 0x00, 0x00, 0x00, 0x3C, 0x00, 0x04] ++ answer_address

/-- The call `memcpy(resp, req, len)` after `recvfrom` has put the datagram in
`req`: the first `len` bytes of `resp` become those of the datagram, the rest
of `resp` keeps what it held. -/
def memcpy_req (resp : Mem) (dgram : List Byte) (len : Nat) : Mem :=
  fun i => if i < len then dgram.getD i 0 else resp i

/-- The loop `while (pos < len && resp[pos] != 0) pos += (resp[pos] + 1);`
started at `pos`. Every read has `pos < len`, and `len` never exceeds the size
of `resp`. `none` is fuel exhaustion. -/
def find_question_end (resp : Mem) (len : Nat) : Nat → Nat → Option Nat
  | 0, _ => none
  | fuel + 1, pos =>
    if pos < len ∧ resp pos ≠ 0 then
      find_question_end resp len fuel (pos + ((resp pos).val + 1))
    else some pos

/-- The stores `resp[out_pos++] = b` for the bytes of `bs` in turn, each
checked against the size of `resp`: `none` as soon as one falls outside. -/
def store_seq (resp : Mem) (out_pos : Nat) : List Byte → Option Mem
  | [] => some resp
  | b :: bs =>
    if out_pos < RESP_SIZE then store_seq (store resp out_pos b) (out_pos + 1) bs
    else none

/-- The bytes `sendto(sock, resp, out_pos, ...)` puts on the wire. -/
def sendto_payload (resp : Mem) (out_pos : Nat) : List Byte :=
  (List.range out_pos).map resp

/-- What one turn of the receive loop does towards the client. -/
inductive DnsResult
  /-- The turn ended at `continue`: nothing sent. -/
  | dropped
  /-- The turn reached `sendto` with this payload. -/
  | sent (payload : List Byte)
  /-- A store went outside `resp[600]`. -/
  | fault
  /-- The question scan ran out of fuel. -/
  | diverged
  deriving DecidableEq, Repr

/-- One turn of the `while (1)` loop of `dns_responder_task`, for a received
datagram `dgram`, with `resp` as the earlier turns left it. `recvfrom` returns
the datagram length cut to the size of `req`. The question scan gets one unit
of fuel per received byte and one more; every step of the scan moves `pos` on
and the scan stops once `pos` reaches `len`, so that is always enough. -/
def dns_responder_turn (resp : Mem) (dgram : List Byte) : Mem × DnsResult :=
  let len := min dgram.length REQ_SIZE
  if len = 0 then (resp, DnsResult.dropped)
  else
    let len := if len > RESP_SIZE then RESP_SIZE else len
    let resp := memcpy_req resp dgram len
    let resp := store resp 2 0x81
    let resp := store resp 3 0x80
    let resp := store resp 6 0x00
    let resp := store resp 7 0x01
    match find_question_end resp len (len + 1) 12 with
    | none => (resp, DnsResult.diverged)
    | some pos =>
      let pos := pos + 1
      let pos := pos + 4
      let out_pos := pos
      match store_seq resp out_pos answer_record with
      | none => (resp, DnsResult.fault)
      | some resp => (resp, DnsResult.sent (sendto_payload resp (out_pos + 16)))

/-- The receive loop of `dns_responder_task` over the datagrams that arrive,
in order, from a first state of `resp`: the outcome of every turn. The run
ends at a store outside `resp`. -/
def dns_responder_task (resp : Mem) : List (List Byte) → List DnsResult
  | [] => []
  | dgram :: rest =>
    match dns_responder_turn resp dgram with
    | (_, DnsResult.fault) => [DnsResult.fault]
    | (resp, r) => r :: dns_responder_task resp rest

/-! ## HTTP server

The ESP-IDF HTTP server is a library outside this repository. A request's
response side is kept as the status line, content type and headers the handler
has set, and the transfers it has handed to the transport, in order. -/

/-- The request methods (`httpd_method_t`) the embedding tells apart. -/
inductive http_method
  | HTTP_GET
  | HTTP_HEAD
  | HTTP_POST
  deriving DecidableEq, Repr

/-- The error codes (`httpd_err_code_t`) the embedding uses. -/
inductive httpd_err_code_t
  | HTTPD_404_NOT_FOUND
  | HTTPD_405_METHOD_NOT_ALLOWED
  | HTTPD_500_INTERNAL_SERVER_ERROR
  deriving DecidableEq, Repr

/-- One call that hands a response, or a piece of one, to the transport. -/
inductive Transfer
  /-- The call `httpd_resp_send(req, buf, len)` with these body bytes. -/
  | send (body : List Byte)
  /-- The call `httpd_resp_send_chunk(req, buf, len)` with these bytes, and
  whether it returned `ESP_OK`. -/
  | send_chunk (body : List Byte) (ok : Bool)
  /-- The call `httpd_resp_send_err(req, code, msg)`. -/
  | send_err (code : httpd_err_code_t) (msg : String)
  /-- The server's own error response for `code`, sent when no handler and no
  error handler takes the request. -/
  | default_err (code : httpd_err_code_t)
  deriving DecidableEq, Repr

/-- The response side of `httpd_req_t`. -/
structure httpd_req_t where
  /-- The status line set by `httpd_resp_set_status`. -/
  status : String
  /-- The content type set by `httpd_resp_set_type`. -/
  content_type : String
  /-- The headers added by `httpd_resp_set_hdr`, in order. -/
  hdrs : List (String × String)
  /-- The transfers made so far, in order. -/
  out : List Transfer
  deriving DecidableEq, Repr

/-- A request as the server hands it to a handler: the library defaults
`200 OK` and `text/html`, no header, nothing sent. -/
def fresh_req : httpd_req_t :=
  { status := "200 OK", content_type := "text/html", hdrs := [], out := [] }

/-- The call `httpd_resp_set_status(req, status)`. -/
def httpd_resp_set_status (req : httpd_req_t) (status : String) : httpd_req_t :=
  { req with status := status }

/-- The call `httpd_resp_set_type(req, type)`. -/
def httpd_resp_set_type (req : httpd_req_t) (type : String) : httpd_req_t :=
  { req with content_type := type }

/-- The call `httpd_resp_set_hdr(req, field, value)`. -/
def httpd_resp_set_hdr (req : httpd_req_t) (field value : String) : httpd_req_t :=
  { req with hdrs := req.hdrs ++ [(field, value)] }

/-- The call `httpd_resp_send(req, buf, len)`. -/
def httpd_resp_send (req : httpd_req_t) (body : List Byte) : httpd_req_t :=
  { req with out := req.out ++ [Transfer.send body] }

/-- The status line the server sends for an error code. -/
def httpd_err_code_t.status : httpd_err_code_t → String
  | httpd_err_code_t.HTTPD_404_NOT_FOUND => "404 Not Found"
  | httpd_err_code_t.HTTPD_405_METHOD_NOT_ALLOWED => "405 Method Not Allowed"
  | httpd_err_code_t.HTTPD_500_INTERNAL_SERVER_ERROR => "500 Internal Server Error"

/-- The call `httpd_resp_send_err(req, code, msg)`: the status line becomes the
one of `code` and the message is sent as the response. -/
def httpd_resp_send_err (req : httpd_req_t) (code : httpd_err_code_t) (msg : String) :
    httpd_req_t :=
  { req with status := code.status, out := req.out ++ [Transfer.send_err code msg] }

/-- The server's own error response for `code`. -/
def httpd_default_err (req : httpd_req_t) (code : httpd_err_code_t) : httpd_req_t :=
  { req with status := code.status, out := req.out ++ [Transfer.default_err code] }

/-- The call `httpd_resp_send_chunk(req, buf, len)`: the request afterwards and
whether the call returned `ESP_OK`. `send_ok k` tells whether the transfer that
comes after `k` earlier transfers on this request succeeds. -/
def httpd_resp_send_chunk (send_ok : Nat → Bool) (req : httpd_req_t) (body : List Byte) :
    httpd_req_t × Bool :=
  let ok := send_ok req.out.length
  ({ req with out := req.out ++ [Transfer.send_chunk body ok] }, ok)

/-- What a handler meets outside the request. -/
structure Env where
  /-- The bytes of `/spiffs/file.zip`; `none` when `fopen` fails. -/
  file_zip : Option (List Byte)
  /-- Whether `malloc(CHUNK)` returns a buffer. -/
  malloc_ok : Bool
  /-- Whether the transfer after `k` earlier ones returns `ESP_OK`. -/
  send_ok : Nat → Bool

/-- The loop `while ((r = fread(buf, 1, CHUNK, f)) > 0)` of `stream_file_zip`,
with `f` the bytes of the file from the read position on. `fread` returns
`CHUNK` bytes, or what is left when that is less. `none` is fuel exhaustion. -/
def stream_loop (send_ok : Nat → Bool) : Nat → List Byte → httpd_req_t → Option httpd_req_t
  | 0, _, _ => none
  | fuel + 1, f, req =>
    let r := min CHUNK f.length
    if r > 0 then
      match httpd_resp_send_chunk send_ok req (f.take r) with
      | (req, false) => some req
      | (req, true) => stream_loop send_ok fuel (f.drop r) req
    else some req

/-- The function `stream_file_zip`: the request after it returns. The returned
`esp_err_t` is left out. The loop gets one unit of fuel per byte of the file
and one more. -/
def stream_file_zip (env : Env) (req : httpd_req_t) : Option httpd_req_t :=
  match env.file_zip with
  | none => some (httpd_resp_send_err req httpd_err_code_t.HTTPD_404_NOT_FOUND "file not found")
  | some f =>
    let req := httpd_resp_set_type req "application/octet-stream"
    let req := httpd_resp_set_hdr req "Content-Disposition" "attachment; filename=\"file.zip\""
    let req := httpd_resp_set_hdr req "Content-Transfer-Encoding" "binary"
    let req := httpd_resp_set_hdr req "Cache-Control" "no-store, no-cache, must-revalidate"
    let req := httpd_resp_set_hdr req "Pragma" "no-cache"
    if env.malloc_ok then
      match stream_loop env.send_ok (f.length + 1) f req with
      | none => none
      | some req => some (httpd_resp_send_chunk env.send_ok req []).1
    else
      some (httpd_resp_send_err req httpd_err_code_t.HTTPD_500_INTERNAL_SERVER_ERROR
        "out of memory")

/-- The function `send_redirect_to_download`. -/
def send_redirect_to_download (req : httpd_req_t) : httpd_req_t :=
  let req := httpd_resp_set_status req "302 Found"
  let req := httpd_resp_set_hdr req "Location" "/download"
  let req := httpd_resp_set_hdr req "Connection" "close"
  let req := httpd_resp_set_hdr req "Cache-Control" "no-store, no-cache, must-revalidate"
  let req := httpd_resp_set_hdr req "Pragma" "no-cache"
  httpd_resp_send req []

/-- The function `probe_redirect_handler`. -/
def probe_redirect_handler (req : httpd_req_t) : httpd_req_t :=
  send_redirect_to_download req

/-- The function `root_get_handler`. -/
def root_get_handler (req : httpd_req_t) : httpd_req_t :=
  send_redirect_to_download req

/-- The function `download_get_handler`. -/
def download_get_handler (env : Env) (req : httpd_req_t) : Option httpd_req_t :=
  stream_file_zip env req

/-- The function `download_head_handler`. After `fseek(f, 0, SEEK_END)` the
value of `ftell(f)` is the size of the file; `%ld` prints it in decimal. -/
def download_head_handler (env : Env) (req : httpd_req_t) : httpd_req_t :=
  match env.file_zip with
  | none => httpd_resp_send_err req httpd_err_code_t.HTTPD_404_NOT_FOUND "file not found"
  | some f =>
    let file_size : Int := f.length
    let req := httpd_resp_set_type req "application/octet-stream"
    let req := httpd_resp_set_hdr req "Content-Disposition" "attachment; filename=\"file.zip\""
    let req := httpd_resp_set_hdr req "Content-Transfer-Encoding" "binary"
    let req := httpd_resp_set_hdr req "Cache-Control" "no-store, no-cache, must-revalidate"
    let req := httpd_resp_set_hdr req "Pragma" "no-cache"
    let req :=
      if file_size > 0 then httpd_resp_set_hdr req "Content-Length" (toString file_size)
      else req
    httpd_resp_send req []

/-- The function `http_404_error_handler`. -/
def http_404_error_handler (req : httpd_req_t) : httpd_req_t :=
  send_redirect_to_download req

/-- The function `favicon_handler`. -/
def favicon_handler (req : httpd_req_t) : httpd_req_t :=
  let req := httpd_resp_set_status req "204 No Content"
  httpd_resp_send req []

/-- The handlers a route can name. -/
inductive Handler
  | probe_redirect
  | root_get
  | download_get
  | download_head
  | favicon
  deriving DecidableEq, Repr

/-- One route (`httpd_uri_t`; `user_ctx` is always `NULL`). -/
structure httpd_uri_t where
  /-- The path, or the pattern when wildcard matching is on. -/
  uri : String
  /-- The method the route takes. -/
  method : http_method
  /-- The handler the route names. -/
  handler : Handler
  deriving DecidableEq, Repr

/-- The server as `start_webserver` leaves it. -/
structure Server where
  /-- Whether `config.uri_match_fn` is `httpd_uri_match_wildcard`. -/
  wildcard : Bool
  /-- The field `config.max_uri_handlers`. -/
  max_uri_handlers : Nat
  /-- The registered routes, in registration order. -/
  handlers : List httpd_uri_t
  /-- Whether `http_404_error_handler` is registered for `HTTPD_404_NOT_FOUND`. -/
  err_404 : Bool
  deriving DecidableEq, Repr

/-- The call `httpd_register_uri_handler(server, &uri)`: the route goes behind
the ones already there while the table has room; a refused route is only
logged. Lookup takes the first match in this order, so a route that an earlier
one covers is never chosen, whether or not the library keeps it. -/
def httpd_register_uri_handler (server : Server) (uri : httpd_uri_t) : Server :=
  if server.handlers.length < server.max_uri_handlers then
    { server with handlers := server.handlers ++ [uri] }
  else server

/-- The array `detectionPaths`. -/
def detectionPaths : List String :=
  ["/hotspot-detect.html", "/library/test/success.html", "/success.html", "/hotspot-detect",
   "/generate_204", "/generate_200",
   "/ncsi.txt", "/connecttest.txt", "/redirect", "/fwlink",
   "/success.txt", "/wifistub.html",
   "/nm-inet-test.txt", "/check_network_status.txt",
   "/index.html", "/kindle-wifi/wifistub.html", "/success"]

/-- The function `start_webserver` when `httpd_start` succeeds. The argument
tells whether the build defines `CONFIG_HTTPD_ENABLE_WILDCARD`. -/
def start_webserver (wildcard : Bool) : Server :=
  let server : Server :=
    { wildcard := wildcard, max_uri_handlers := 32, handlers := [], err_404 := false }
  let server := detectionPaths.foldl
    (fun s p => httpd_register_uri_handler s
      { uri := p, method := http_method.HTTP_GET, handler := Handler.probe_redirect })
    server
  let server := httpd_register_uri_handler server
    { uri := "/", method := http_method.HTTP_GET, handler := Handler.root_get }
  let server := httpd_register_uri_handler server
    { uri := "/download", method := http_method.HTTP_GET, handler := Handler.download_get }
  let server := httpd_register_uri_handler server
    { uri := "/download", method := http_method.HTTP_HEAD, handler := Handler.download_head }
  let server :=
    if wildcard then
      let server := httpd_register_uri_handler server
        { uri := "/*", method := http_method.HTTP_GET, handler := Handler.download_get }
      httpd_register_uri_handler server
        { uri := "/*", method := http_method.HTTP_HEAD, handler := Handler.download_head }
    else server
  let server := httpd_register_uri_handler server
    { uri := "/favicon.ico", method := http_method.HTTP_GET, handler := Handler.favicon }
  { server with err_404 := true }

/-- Whether a route's `uri` takes the request path: equal strings, or, with
wildcard matching on and a pattern that ends in a star, the pattern without its
star at the front of the path. -/
def httpd_uri_match (wildcard : Bool) (template path : String) : Bool :=
  if wildcard ∧ template.toList.getLast? = some '*' then
    template.toList.dropLast.isPrefixOf path.toList
  else template = path

/-- The result of the server's lookup: the route's handler, or no route and
the error to raise. -/
inductive Lookup
  | found (h : Handler)
  | miss (err : httpd_err_code_t)
  deriving DecidableEq, Repr

/-- The server's lookup over the routes in order: the first route whose `uri`
and method both fit; when none does, 405 if some route took the path under
another method, else the error so far (404 at the start). -/
def httpd_find_uri_handler (wildcard : Bool) (method : http_method) (path : String) :
    List httpd_uri_t → httpd_err_code_t → Lookup
  | [], err => Lookup.miss err
  | h :: hs, err =>
    if httpd_uri_match wildcard h.uri path then
      if h.method = method then Lookup.found h.handler
      else httpd_find_uri_handler wildcard method path hs
        httpd_err_code_t.HTTPD_405_METHOD_NOT_ALLOWED
    else httpd_find_uri_handler wildcard method path hs err

/-- The handler a route names, run on a request. -/
def run_handler (env : Env) (req : httpd_req_t) : Handler → Option httpd_req_t
  | Handler.probe_redirect => some (probe_redirect_handler req)
  | Handler.root_get => some (root_get_handler req)
  | Handler.download_get => download_get_handler env req
  | Handler.download_head => some (download_head_handler env req)
  | Handler.favicon => some (favicon_handler req)

/-- One request through the server: the route found is run; a path no route
takes goes to the registered 404 handler; any other miss gets the server's own
error response. -/
def httpd_uri_handler (server : Server) (env : Env) (method : http_method) (path : String) :
    Option httpd_req_t :=
  match httpd_find_uri_handler server.wildcard method path server.handlers
      httpd_err_code_t.HTTPD_404_NOT_FOUND with
  | Lookup.found h => run_handler env fresh_req h
  | Lookup.miss httpd_err_code_t.HTTPD_404_NOT_FOUND =>
    if server.err_404 then some (http_404_error_handler fresh_req)
    else some (httpd_default_err fresh_req httpd_err_code_t.HTTPD_404_NOT_FOUND)
  | Lookup.miss code => some (httpd_default_err fresh_req code)

/-- The bytes of the resource that reached the peer: the sum of the lengths of
the chunk transfers that returned `ESP_OK`. -/
def bytes_transferred (req : httpd_req_t) : Nat :=
  (req.out.map (fun t =>
    match t with
    | Transfer.send_chunk body true => body.length
    | _ => 0)).sum

/-- The redirect response: status 302, Location `/download`, the close and
no-cache headers, one send with an empty body. -/
def redirect_response : httpd_req_t :=
  { status := "302 Found", content_type := "text/html",
    hdrs := [("Location", "/download"), ("Connection", "close"),
      ("Cache-Control", "no-store, no-cache, must-revalidate"), ("Pragma", "no-cache")],
    out := [Transfer.send []] }

/-! ## Queries

What the statements about valid queries range over: a datagram laid out as a
header, one question and whatever follows it. -/

/-- The labels of a name as they lie in a question: each label behind its
length byte. -/
def encode_labels : List (List Byte) → List Byte
  | [] => []
  | l :: ls => (Fin.ofNat l.length : Byte) :: (l ++ encode_labels ls)

/-- A query with one question, by its parts. -/
structure Query where
  /-- The header: transaction id, flags and the four counts. -/
  header : List Byte
  /-- The labels of the queried name, without their length bytes. -/
  labels : List (List Byte)
  /-- The type and the class of the question. -/
  qtype_qclass : List Byte
  /-- The bytes behind the question, if any (an OPT record, say). -/
  extra : List Byte

/-- The question section: the labels behind their length bytes, the zero
length byte that ends the name, then type and class. -/
def Query.question (q : Query) : List Byte :=
  encode_labels q.labels ++ 0 :: q.qtype_qclass

/-- The datagram that carries the query. -/
def Query.bytes (q : Query) : List Byte :=
  q.header ++ (q.question ++ q.extra)

/-- A syntactically valid query: a header of 12 bytes, labels that are not
empty and whose length fits a length byte (DNS labels have at most 63 bytes),
4 bytes of type and class, and a question that ends within the 512 bytes
`recvfrom` stores. -/
def Query.valid (q : Query) : Prop :=
  q.header.length = 12 ∧ (∀ l ∈ q.labels, 0 < l.length ∧ l.length < 256) ∧
    q.qtype_qclass.length = 4 ∧ 12 + q.question.length ≤ REQ_SIZE

instance (q : Query) : Decidable q.valid := by
  unfold Query.valid; infer_instance

/-- The header of the response for a twelve-byte query header: bytes 2 and 3
replaced by `81 80`, bytes 6 and 7 by `00 01`, the others kept. -/
def response_header (h : List Byte) : List Byte :=
  h.take 2 ++ [0x81, 0x80] ++ (h.drop 4).take 2 ++ [0x00, 0x01] ++ h.drop 8

/-! ## Concrete inputs -/

/-- A query for the A record of `captive.apple.com`, transaction id `0x1234`. -/
def captive_query : Query :=
  { header := [0x12, 0x34, 0x01, 0x00, 0x00, 0x01, 0x00, 0x00, 0x00, 0x00, 0x00, 0x00],
    labels := [[99, 97, 112, 116, 105, 118, 101], [97, 112, 112, 108, 101], [99, 111, 109]],
    qtype_qclass := [0x00, 0x01, 0x00, 0x01],
    extra := [] }

/-- The response to `captive_query`. -/
def captive_response : List Byte :=
  [0x12, 0x34, 0x81, 0x80, 0x00, 0x01, 0x00, 0x01, 0x00, 0x00, 0x00, 0x00,
   7, 99, 97, 112, 116, 105, 118, 101, 5, 97, 112, 112, 108, 101, 3, 99, 111, 109, 0,
   0x00, 0x01, 0x00, 0x01,
   0xC0, 0x0C, 0x00, 0x01, 0x00, 0x01, 0x00, 0x00, 0x00, 0x3C, 0x00, 0x04, 10, 0, 0, 1]

/-- A query for the AAAA record of `example.com`, transaction id `0xBEEF`,
with an OPT record behind the question. -/
def example_query : Query :=
  { header := [0xBE, 0xEF, 0x01, 0x00, 0x00, 0x01, 0x00, 0x00, 0x00, 0x00, 0x00, 0x01],
    labels := [[101, 120, 97, 109, 112, 108, 101], [99, 111, 109]],
    qtype_qclass := [0x00, 0x1C, 0x00, 0x01],
    extra := [0x00, 0x00, 0x29, 0x10, 0x00, 0x00, 0x00, 0x00, 0x00, 0x00, 0x00] }

/-- A query for the NS records of the root, transaction id `0x0007`. -/
def root_query : Query :=
  { header := [0x00, 0x07, 0x01, 0x00, 0x00, 0x01, 0x00, 0x00, 0x00, 0x00, 0x00, 0x00],
    labels := [],
    qtype_qclass := [0x00, 0x02, 0x00, 0x01],
    extra := [] }

/-- A buffer of zero bytes. -/
def zero_mem : Mem := fun _ => 0

/-- A datagram of 370 bytes, zero but for the length bytes 255 at offset 12,
100 at offset 268 and 255 at offset 369. -/
def overflow_datagram : List Byte :=
  (((List.replicate 370 (0 : Byte)).set 12 255).set 268 100).set 369 255

/-- A query for the root name with type `0xAABB` and class `0xCCDD`. -/
def earlier_a : List Byte :=
  [0x00, 0x01, 0x01, 0x00, 0x00, 0x01, 0x00, 0x00, 0x00, 0x00, 0x00, 0x00,
   0x00, 0xAA, 0xBB, 0xCC, 0xDD]

/-- A query for the root name with type A and class IN. -/
def earlier_b : List Byte :=
  [0x00, 0x02, 0x01, 0x00, 0x00, 0x01, 0x00, 0x00, 0x00, 0x00, 0x00, 0x00,
   0x00, 0x00, 0x01, 0x00, 0x01]

/-- A datagram that is a header and nothing else. -/
def header_only : List Byte :=
  [0x00, 0x03, 0x01, 0x00, 0x00, 0x00, 0x00, 0x00, 0x00, 0x00, 0x00, 0x00]

/-- The answer record with the address written out. -/
def answer_bytes : List Byte :=
  [0xC0, 0x0C, 0x00, 0x01, 0x00, 0x01, 0x00, 0x00, 0x00, 0x3C, 0x00, 0x04, 0x0A, 0x00, 0x00, 0x01]

/-- A resource of three bytes that can be opened, with every allocation and
every transfer succeeding. -/
def small_env : Env :=
  { file_zip := some [1, 2, 3], malloc_ok := true, send_ok := fun _ => true }

/-- A resource of three bytes that can be opened, with `malloc(CHUNK)`
returning `NULL`. -/
def oom_env : Env :=
  { file_zip := some [1, 2, 3], malloc_ok := false, send_ok := fun _ => true }

/-- A resource of three bytes that can be opened, with every transfer failing
(the peer has gone). -/
def failing_env : Env :=
  { file_zip := some [1, 2, 3], malloc_ok := true, send_ok := fun _ => false }

/-- An empty resource that can be opened. -/
def empty_env : Env :=
  { file_zip := some [], malloc_ok := true, send_ok := fun _ => true }

/-- No resource: `fopen` fails. -/
def missing_env : Env :=
  { file_zip := none, malloc_ok := true, send_ok := fun _ => true }

/-- The response of `favicon_handler`. -/
def no_content_response : httpd_req_t :=
  { status := "204 No Content", content_type := "text/html", hdrs := [],
    out := [Transfer.send []] }

/-- The response of a handler that could not open the resource. -/
def not_found_response : httpd_req_t :=
  { status := "404 Not Found", content_type := "text/html", hdrs := [],
    out := [Transfer.send_err httpd_err_code_t.HTTPD_404_NOT_FOUND "file not found"] }

/-! ## Lemmas: DNS responder -/

/-- A list is the image of its index range under its own lookup. -/
theorem map_range_getD (l : List Byte) (f : Nat → Byte)
    (h : ∀ k, k < l.length → f k = l.getD k 0) : (List.range l.length).map f = l := by
  apply List.ext_getElem
  · simp
  · intro i h1 h2
    simp at h1
    simp [h i h2, List.getD_eq_getElem?_getD, List.getElem?_eq_getElem h2]

/-- The element right behind a prefix. -/
theorem getD_append_cons (pre : List Byte) (x : Byte) (rest : List Byte) :
    (pre ++ x :: rest).getD pre.length 0 = x := by
  induction pre with
  | nil => rfl
  | cons a pre ih => simpa using ih

/-- Stores that stay inside `resp` all happen: the bytes land at `p`, `p + 1`,
... and nothing below `p` changes. -/
theorem store_seq_spec (bs : List Byte) : ∀ (m : Mem) (p : Nat), p + bs.length ≤ RESP_SIZE →
    ∃ m2, store_seq m p bs = some m2 ∧ (∀ j, j < p → m2 j = m j) ∧
      (∀ k, k < bs.length → m2 (p + k) = bs.getD k 0) := by
  induction bs with
  | nil => intro m p _; exact ⟨m, rfl, fun _ _ => rfl, fun k hk => absurd hk (by simp)⟩
  | cons b bs ih =>
    intro m p hp
    simp only [List.length_cons] at hp
    obtain ⟨m2, h1, h2, h3⟩ := ih (store m p b) (p + 1) (by omega)
    refine ⟨m2, ?_, ?_, ?_⟩
    · have : p < RESP_SIZE := by omega
      simp [store_seq, this, h1]
    · intro j hj
      rw [h2 j (by omega)]
      simp [store, Nat.ne_of_lt hj]
    · intro k hk
      cases k with
      | zero => simpa [store] using h2 p (by omega)
      | succ k =>
        simp only [List.length_cons] at hk
        have := h3 k (by omega)
        rw [show p + (k + 1) = p + 1 + k by omega, this]
        simp

/-- On a buffer that holds the datagram, the scan started at the first length
byte of a label sequence stops at the zero byte that ends it. -/
theorem find_question_end_labels (m : Mem) (dgram : List Byte) (len : Nat)
    (hm : ∀ i, 12 ≤ i → i < len → m i = dgram.getD i 0) (rest : List Byte)
    (ls : List (List Byte)) :
    ∀ (pre : List Byte) (fuel : Nat), (∀ l ∈ ls, 0 < l.length ∧ l.length < 256) →
      dgram = pre ++ (encode_labels ls ++ 0 :: rest) → 12 ≤ pre.length →
      pre.length + (encode_labels ls).length < len → (encode_labels ls).length < fuel →
      find_question_end m len fuel pre.length = some (pre.length + (encode_labels ls).length) := by
  induction ls with
  | nil =>
    intro pre fuel _ hd hpre hlen hfuel
    obtain ⟨f, rfl⟩ : ∃ f, fuel = f + 1 := ⟨fuel - 1, by omega⟩
    have h0 : m pre.length = 0 := by
      rw [hm _ hpre (by simpa [encode_labels] using hlen), hd]
      exact getD_append_cons pre 0 rest
    simp [find_question_end, h0, encode_labels]
  | cons l ls ih =>
    intro pre fuel hls hd hpre hlen hfuel
    obtain ⟨f, rfl⟩ : ∃ f, fuel = f + 1 := ⟨fuel - 1, by omega⟩
    have hl := hls l (by simp)
    simp only [encode_labels, List.length_cons, List.length_append] at hlen hfuel
    have hb : m pre.length = (Fin.ofNat l.length : Byte) := by
      rw [hm _ hpre (by omega), hd]
      exact getD_append_cons pre _ _
    have hv : (Fin.ofNat l.length : Byte).val = l.length := by
      simp [Fin.ofNat]; omega
    have hne : (Fin.ofNat l.length : Byte) ≠ 0 := by
      intro h
      have h0 : l.length = 0 := by rw [← hv, h]; rfl
      omega
    have hlt : pre.length < len := by omega
    have := ih (pre ++ (Fin.ofNat l.length : Byte) :: l) f
      (fun x hx => hls x (by simp [hx])) (by simp [hd, encode_labels])
      (by simp; omega) (by simp; omega) (by omega)
    simp only [find_question_end, hb, hv, hlt, hne, ne_eq, not_false_eq_true, and_self, if_true]
    simp only [List.length_append, List.length_cons] at this
    rw [show pre.length + (l.length + 1) = pre.length + (l.length + 1) by rfl, this]
    simp [encode_labels]; omega

/-- A list of length twelve, element by element. -/
theorem length_twelve (h : List Byte) (hl : h.length = 12) :
    ∃ a b c d e f g i j k l m, h = [a, b, c, d, e, f, g, i, j, k, l, m] := by
  match h, hl with
  | [a, b, c, d, e, f, g, i, j, k, l, m], _ => exact ⟨a, b, c, d, e, f, g, i, j, k, l, m, rfl⟩

/-- The whole response to a valid query, whatever `resp` held before. -/
theorem turn_valid (resp : Mem) (q : Query) (hv : q.valid) :
    (dns_responder_turn resp q.bytes).2 =
      DnsResult.sent (response_header q.header ++ q.question ++ answer_record) := by
  obtain ⟨hh, hls, htc, hsz⟩ := hv
  have hblen : q.bytes.length = 12 + q.question.length + q.extra.length := by
    simp [Query.bytes, hh]; omega
  have hqlen : q.question.length = (encode_labels q.labels).length + 5 := by
    simp [Query.question, htc]
  unfold dns_responder_turn
  generalize hL : min q.bytes.length REQ_SIZE = L
  have hL1 : 12 + q.question.length ≤ L := by
    rw [← hL]; simp only [REQ_SIZE] at hsz ⊢; omega
  have hL2 : L ≤ 512 := by rw [← hL]; simp only [REQ_SIZE]; omega
  have hL0 : L ≠ 0 := by omega
  have hLcap : ¬ L > RESP_SIZE := by simp only [RESP_SIZE]; omega
  simp only [hL0, hLcap, if_false]
  generalize hm2 : store (store (store (store (memcpy_req resp q.bytes L) 2 0x81) 3 0x80) 6 0x00) 7 0x01 = m2
  have hm : ∀ i, 12 ≤ i → i < L → m2 i = q.bytes.getD i 0 := by
    intro i hi hiL
    have h2 : i ≠ 2 := by omega
    have h3 : i ≠ 3 := by omega
    have h6 : i ≠ 6 := by omega
    have h7 : i ≠ 7 := by omega
    simp [← hm2, store, memcpy_req, h2, h3, h6, h7, hiL]
  have hfind := find_question_end_labels m2 q.bytes L hm (q.qtype_qclass ++ q.extra) q.labels
    q.header (L + 1) hls (by simp [Query.bytes, Query.question]) (by omega) (by omega) (by omega)
  rw [hh] at hfind
  simp only [hfind]
  obtain ⟨m3, hs1, hs2, hs3⟩ := store_seq_spec answer_record m2 (12 + q.question.length)
    (by simp only [RESP_SIZE, show answer_record.length = 16 by decide]; omega)
  have hpos : 12 + (encode_labels q.labels).length + 1 + 4 = 12 + q.question.length := by omega
  simp only [hpos, hs1]
  congr 1
  have hr : List.range (12 + q.question.length + 16) =
      List.range 12 ++ ((List.range q.question.length).map (fun k => 12 + k) ++
        (List.range 16).map (fun k => 12 + q.question.length + k)) := by
    rw [List.range_add, List.range_add, List.append_assoc]
  have h3 : (List.range 16).map (fun k => m3 (12 + q.question.length + k)) = answer_record :=
    map_range_getD answer_record _ hs3
  have h2 : (List.range q.question.length).map (fun k => m3 (12 + k)) = q.question := by
    apply map_range_getD
    intro k hk
    rw [hs2 _ (by omega), hm _ (by omega) (by omega)]
    simp only [Query.bytes, List.getD_eq_getElem?_getD]
    rw [List.getElem?_append_right (by omega), hh, Nat.add_sub_cancel_left,
      List.getElem?_append_left hk]
  have h1 : (List.range 12).map m3 = response_header q.header := by
    obtain ⟨a, b, c, d, e, f, g, i, j, k, l, m, hq⟩ := length_twelve q.header hh
    have hx : ∀ x, x < 12 → m3 x = m2 x := fun x hx => hs2 x (by omega)
    have hlt : ∀ x, x < 12 → x < L := fun x hx => by omega
    simp only [show List.range 12 = [0, 1, 2, 3, 4, 5, 6, 7, 8, 9, 10, 11] by decide,
      List.map_cons, List.map_nil]
    simp [hx, ← hm2, store, memcpy_req, hlt, Query.bytes, hq, response_header]
  simp only [sendto_payload, hr, List.map_append, List.map_map, Function.comp_def, h1, h2, h3,
    List.append_assoc]

/-- The rewritten header still has twelve bytes. -/
theorem response_header_length (h : List Byte) (hl : h.length = 12) :
    (response_header h).length = 12 := by
  obtain ⟨a, b, c, d, e, f, g, i, j, k, l, m, rfl⟩ := length_twelve h hl
  rfl

/-- The scan ends: with `len - pos + 1` units of fuel it returns a position. -/
theorem find_question_end_total (m : Mem) (len : Nat) :
    ∀ (fuel pos : Nat), 0 < fuel → len < pos + fuel →
      ∃ p, find_question_end m len fuel pos = some p := by
  intro fuel
  induction fuel with
  | zero => intro pos h; exact absurd h (Nat.lt_irrefl 0)
  | succ fuel ih =>
    intro pos _ h
    by_cases hc : pos < len ∧ m pos ≠ 0
    · obtain ⟨p, hp⟩ := ih (pos + ((m pos).val + 1)) (by omega) (by omega)
      exact ⟨p, by rw [find_question_end, if_pos hc, hp]⟩
    · exact ⟨pos, by rw [find_question_end, if_neg hc]⟩

/-- The question scan of a turn never runs out of fuel, whatever was received
and whatever `resp` held. -/
theorem turn_never_diverges (resp : Mem) (dgram : List Byte) :
    (dns_responder_turn resp dgram).2 ≠ DnsResult.diverged := by
  unfold dns_responder_turn
  generalize min dgram.length REQ_SIZE = L
  by_cases hL0 : L = 0
  · simp only [hL0, if_true]
    intro h
    cases h
  · simp only [hL0, if_false]
    generalize (if L > RESP_SIZE then RESP_SIZE else L) = len
    generalize store (store (store (store (memcpy_req resp dgram len) 2 0x81) 3 0x80) 6 0x00)
      7 0x01 = m2
    obtain ⟨p, hp⟩ := find_question_end_total m2 len (len + 1) 12 (by omega) (by omega)
    simp only [hp]
    cases store_seq m2 (p + 1 + 4) answer_record with
    | none => intro h; cases h
    | some m3 => intro h; cases h

/-! ## Lemmas: HTTP server -/

/-- The read loop ends, whatever the transfers return: one unit of fuel per
byte left and one more is enough. -/
theorem stream_loop_total (send_ok : Nat → Bool) :
    ∀ (fuel : Nat) (f : List Byte) (req : httpd_req_t), f.length < fuel →
      ∃ r, stream_loop send_ok fuel f req = some r := by
  intro fuel
  induction fuel with
  | zero => intro f req h; exact absurd h (Nat.not_lt_zero _)
  | succ fuel ih =>
    intro f req hlen
    by_cases hr : min CHUNK f.length > 0
    · have hlt : (f.drop (min CHUNK f.length)).length < fuel := by
        rw [List.length_drop]; omega
      simp only [stream_loop, hr, if_true, httpd_resp_send_chunk]
      cases send_ok req.out.length with
      | false => exact ⟨_, rfl⟩
      | true => exact ih _ _ hlt
    · exact ⟨req, by simp only [stream_loop, hr, if_false]⟩

/-- The function `stream_file_zip` always returns. -/
theorem stream_file_zip_total (env : Env) (req : httpd_req_t) :
    ∃ r, stream_file_zip env req = some r := by
  unfold stream_file_zip
  cases env.file_zip with
  | none => exact ⟨_, rfl⟩
  | some f =>
    cases env.malloc_ok with
    | false => exact ⟨_, rfl⟩
    | true =>
      obtain ⟨r, hr⟩ := stream_loop_total env.send_ok (f.length + 1) f
        (httpd_resp_set_hdr (httpd_resp_set_hdr (httpd_resp_set_hdr (httpd_resp_set_hdr
          (httpd_resp_set_type req "application/octet-stream")
          "Content-Disposition" "attachment; filename=\"file.zip\"")
          "Content-Transfer-Encoding" "binary")
          "Cache-Control" "no-store, no-cache, must-revalidate")
          "Pragma" "no-cache") (Nat.lt_succ_self _)
      simp only [if_true, hr]
      exact ⟨_, rfl⟩

/-- When every transfer succeeds, the read loop sends the file as units of 1 to
`CHUNK` bytes, in order. -/
theorem stream_loop_all (send_ok : Nat → Bool) (hs : ∀ k, send_ok k = true) :
    ∀ (fuel : Nat) (f : List Byte) (req : httpd_req_t), f.length < fuel →
      ∃ units : List (List Byte),
        stream_loop send_ok fuel f req =
          some { req with
            out := req.out ++ units.map (fun u => Transfer.send_chunk u true) } ∧
        (∀ u ∈ units, 1 ≤ u.length ∧ u.length ≤ CHUNK) ∧ units.flatten = f := by
  intro fuel
  induction fuel with
  | zero => intro f req h; exact absurd h (Nat.not_lt_zero _)
  | succ fuel ih =>
    intro f req hlen
    by_cases hr : min CHUNK f.length > 0
    · have hlt : (f.drop (min CHUNK f.length)).length < fuel := by
        rw [List.length_drop]; omega
      obtain ⟨units, h1, h2, h3⟩ := ih (f.drop (min CHUNK f.length))
        { req with
          out := req.out ++ [Transfer.send_chunk (f.take (min CHUNK f.length)) true] } hlt
      refine ⟨f.take (min CHUNK f.length) :: units, ?_, ?_, ?_⟩
      · simp only [stream_loop, hr, if_true, httpd_resp_send_chunk, hs, h1]
        simp [List.append_assoc]
      · intro u hu
        rcases List.mem_cons.mp hu with rfl | hu
        · rw [List.length_take]
          constructor
          · omega
          · exact le_trans (Nat.min_le_left _ _) (Nat.min_le_left _ _)
        · exact h2 u hu
      · simp [h3]
    · have hf : f = [] := by
        have : f.length = 0 := by simp only [CHUNK] at hr; omega
        exact List.length_eq_zero.mp this
      refine ⟨[], ?_, ?_, ?_⟩
      · simp [stream_loop, hr]
      · simp
      · simp [hf]

/-- The byte count of a run of successful chunk transfers and the final
marker. -/
theorem bytes_transferred_units (r : httpd_req_t) (units : List (List Byte))
    (h : r.out = units.map (fun u => Transfer.send_chunk u true) ++
      [Transfer.send_chunk [] true]) :
    bytes_transferred r = units.flatten.length := by
  unfold bytes_transferred
  rw [h]
  clear h
  induction units with
  | nil => simp
  | cons u us ih =>
    simp only [List.map_cons, List.cons_append, List.sum_cons, List.flatten_cons,
      List.length_append] at ih ⊢
    rw [ih]

/-- The decimal form of a size held in a signed integer. -/
theorem int_toString_natCast (n : Nat) : toString (n : Int) = toString n := rfl

/-- Without wildcard matching a route takes exactly its own path. -/
theorem httpd_uri_match_exact (template path : String) :
    httpd_uri_match false template path = true ↔ template = path := by
  simp [httpd_uri_match]

/-- A lookup over routes of which only redirecting GET routes take the path
finds one of those or nothing. -/
theorem find_only_redirects (path : String) (l : List httpd_uri_t)
    (hl : ∀ e ∈ l, e.uri = path →
      e.method = http_method.HTTP_GET ∧
        (e.handler = Handler.probe_redirect ∨ e.handler = Handler.root_get)) :
    ∀ err, httpd_find_uri_handler false http_method.HTTP_GET path l err =
        Lookup.found Handler.probe_redirect ∨
      httpd_find_uri_handler false http_method.HTTP_GET path l err =
        Lookup.found Handler.root_get ∨
      httpd_find_uri_handler false http_method.HTTP_GET path l err = Lookup.miss err := by
  induction l with
  | nil => intro err; simp [httpd_find_uri_handler]
  | cons e es ih =>
    intro err
    have ih2 := ih (fun x hx => hl x (List.mem_cons_of_mem _ hx)) err
    by_cases hm : e.uri = path
    · obtain ⟨h1, h2⟩ := hl e (List.mem_cons_self _ _) hm
      have hmt : httpd_uri_match false e.uri path = true := (httpd_uri_match_exact _ _).mpr hm
      simp only [httpd_find_uri_handler, hmt, h1, if_true]
      rcases h2 with h2 | h2 <;> simp [h2]
    · have hmt : ¬ httpd_uri_match false e.uri path = true :=
        fun h => hm ((httpd_uri_match_exact _ _).mp h)
      simpa only [httpd_find_uri_handler, hmt, if_false] using ih2

/-- The routes of the build without the catch-all routes: redirecting GET
routes, the two `/download` routes and the `/favicon.ico` route. -/
theorem routes_plain : ∀ e ∈ (start_webserver false).handlers,
    (e.method = http_method.HTTP_GET ∧
      (e.handler = Handler.probe_redirect ∨ e.handler = Handler.root_get)) ∨
    e.uri = "/download" ∨ e.uri = "/favicon.ico" := by
  decide

/-- In the build without the catch-all routes, a GET of a path other than
`/download` and `/favicon.ico` gets the redirect response. -/
theorem dispatch_plain_get (env : Env) (path : String) (h1 : path ≠ "/download")
    (h2 : path ≠ "/favicon.ico") :
    httpd_uri_handler (start_webserver false) env http_method.HTTP_GET path =
      some redirect_response := by
  have hl : ∀ e ∈ (start_webserver false).handlers, e.uri = path →
      e.method = http_method.HTTP_GET ∧
        (e.handler = Handler.probe_redirect ∨ e.handler = Handler.root_get) := by
    intro e he hp
    rcases routes_plain e he with h | h | h
    · exact h
    · exact absurd (hp ▸ h) h1
    · exact absurd (hp ▸ h) h2
  have hw : (start_webserver false).wildcard = false := rfl
  have he : (start_webserver false).err_404 = true := rfl
  unfold httpd_uri_handler
  rw [hw]
  rcases find_only_redirects path _ hl httpd_err_code_t.HTTPD_404_NOT_FOUND with h | h | h <;>
    rw [h] <;> simp only [he, if_true] <;> rfl

/-- In both builds `GET /download` runs `stream_file_zip`. -/
theorem dispatch_download_get (w : Bool) (env : Env) :
    httpd_uri_handler (start_webserver w) env http_method.HTTP_GET "/download" =
      stream_file_zip env fresh_req := by
  have h : ∀ b : Bool, httpd_find_uri_handler (start_webserver b).wildcard http_method.HTTP_GET
      "/download" (start_webserver b).handlers httpd_err_code_t.HTTPD_404_NOT_FOUND =
      Lookup.found Handler.download_get := by decide
  unfold httpd_uri_handler
  rw [h w]
  rfl

/-- In both builds `HEAD /download` runs `download_head_handler`. -/
theorem dispatch_download_head (w : Bool) (env : Env) :
    httpd_uri_handler (start_webserver w) env http_method.HTTP_HEAD "/download" =
      some (download_head_handler env fresh_req) := by
  have h : ∀ b : Bool, httpd_find_uri_handler (start_webserver b).wildcard http_method.HTTP_HEAD
      "/download" (start_webserver b).handlers httpd_err_code_t.HTTPD_404_NOT_FOUND =
      Lookup.found Handler.download_head := by decide
  unfold httpd_uri_handler
  rw [h w]
  rfl

/-- In the build without the catch-all routes `GET /favicon.ico` runs
`favicon_handler`. -/
theorem dispatch_favicon (env : Env) :
    httpd_uri_handler (start_webserver false) env http_method.HTTP_GET "/favicon.ico" =
      some no_content_response := by
  have h : httpd_find_uri_handler (start_webserver false).wildcard http_method.HTTP_GET
      "/favicon.ico" (start_webserver false).handlers httpd_err_code_t.HTTPD_404_NOT_FOUND =
      Lookup.found Handler.favicon := by decide
  unfold httpd_uri_handler
  rw [h]
  rfl

/-- The whole response of `stream_file_zip` when the file opens, the buffer is
allocated and every transfer succeeds. -/
theorem stream_file_zip_ok (env : Env) (data : List Byte) (hf : env.file_zip = some data)
    (hm : env.malloc_ok = true) (hs : ∀ k, env.send_ok k = true) :
    ∃ units : List (List Byte),
      stream_file_zip env fresh_req = some
        { status := "200 OK", content_type := "application/octet-stream",
          hdrs := [("Content-Disposition", "attachment; filename=\"file.zip\""),
            ("Content-Transfer-Encoding", "binary"),
            ("Cache-Control", "no-store, no-cache, must-revalidate"), ("Pragma", "no-cache")],
          out := units.map (fun u => Transfer.send_chunk u true) ++
            [Transfer.send_chunk [] true] } ∧
      (∀ u ∈ units, 1 ≤ u.length ∧ u.length ≤ CHUNK) ∧ units.flatten = data := by
  obtain ⟨units, h1, h2, h3⟩ := stream_loop_all env.send_ok hs (data.length + 1) data
    (httpd_resp_set_hdr (httpd_resp_set_hdr (httpd_resp_set_hdr (httpd_resp_set_hdr
      (httpd_resp_set_type fresh_req "application/octet-stream")
      "Content-Disposition" "attachment; filename=\"file.zip\"")
      "Content-Transfer-Encoding" "binary")
      "Cache-Control" "no-store, no-cache, must-revalidate")
      "Pragma" "no-cache") (Nat.lt_succ_self _)
  refine ⟨units, ?_, h2, h3⟩
  simp only [stream_file_zip, hf, hm, if_true, h1, httpd_resp_send_chunk, hs]
  simp [httpd_resp_set_hdr, httpd_resp_set_type, fresh_req]

/-! ## Claims: DNS responder -/

/-- C1: for every valid single-question query, whatever its transaction id,
its name and the earlier contents of the response buffer, the turn sends a
response whose bytes behind the question section are the one answer record
`C0 0C 00 01 00 01 00 00 00 3C 00 04 0A 00 00 01`: a pointer to offset 12,
type A, class IN, TTL 60, RDLENGTH 4 and the configured address 10.0.0.1. -/
theorem dns_answer_record_fixed (resp : Mem) (q : Query) (hv : q.valid) :
    ∃ payload, (dns_responder_turn resp q.bytes).2 = DnsResult.sent payload ∧
      payload.drop (12 + q.question.length) =
        [0xC0, 0x0C, 0x00, 0x01, 0x00, 0x01, 0x00, 0x00, 0x00, 0x3C, 0x00, 0x04,
         0x0A, 0x00, 0x00, 0x01] ∧
      inet_pton ip_str = some [10, 0, 0, 1] := by
  refine ⟨_, turn_valid resp q hv, ?_, by decide⟩
  have hl : (response_header q.header ++ q.question).length = 12 + q.question.length := by
    rw [List.length_append, response_header_length q.header hv.1]
  rw [List.drop_left' hl]
  decide

/-- Witness for C1 at the query for `captive.apple.com`. -/
theorem dns_answer_record_fixed_witness :
    captive_query.valid ∧
    ∃ payload, (dns_responder_turn zero_mem captive_query.bytes).2 = DnsResult.sent payload ∧
      payload.drop (12 + captive_query.question.length) =
        [0xC0, 0x0C, 0x00, 0x01, 0x00, 0x01, 0x00, 0x00, 0x00, 0x3C, 0x00, 0x04,
         0x0A, 0x00, 0x00, 0x01] ∧
      inet_pton ip_str = some [10, 0, 0, 1] :=
  ⟨by decide, dns_answer_record_fixed zero_mem captive_query (by decide)⟩

/-- C2: for every valid single-question query the response repeats the
transaction id in bytes 0 and 1, has bytes 2 and 3 equal to `81 80`, bytes 6
and 7 equal to `00 01`, repeats the question section of the query from offset
12 through the class field byte for byte, and ends with the one answer record
of sixteen bytes right behind it. -/
theorem dns_response_echoes_query (resp : Mem) (q : Query) (hv : q.valid) :
    ∃ payload, (dns_responder_turn resp q.bytes).2 = DnsResult.sent payload ∧
      payload.take 2 = q.bytes.take 2 ∧
      (payload.drop 2).take 2 = [0x81, 0x80] ∧
      (payload.drop 6).take 2 = [0x00, 0x01] ∧
      (payload.drop 12).take q.question.length = (q.bytes.drop 12).take q.question.length ∧
      (q.bytes.drop 12).take q.question.length = q.question ∧
      payload.drop (12 + q.question.length) = answer_record ∧
      answer_record.length = 16 := by
  refine ⟨_, turn_valid resp q hv, ?_⟩
  have hl : (response_header q.header ++ q.question).length = 12 + q.question.length := by
    rw [List.length_append, response_header_length q.header hv.1]
  obtain ⟨a, b, c, d, e, f, g, i, j, k, l, m, hq⟩ := length_twelve q.header hv.1
  refine ⟨?_, ?_, ?_, ?_, ?_, List.drop_left' hl, by decide⟩
  · simp [Query.bytes, hq, response_header]
  · simp [hq, response_header]
  · simp [hq, response_header]
  · simp [Query.bytes, hq, response_header]
  · simp [Query.bytes, hq]

/-- Witness for C2 at the query for `example.com`, which carries an OPT record
behind its question. -/
theorem dns_response_echoes_query_witness :
    example_query.valid ∧
    ∃ payload, (dns_responder_turn zero_mem example_query.bytes).2 = DnsResult.sent payload ∧
      payload.take 2 = example_query.bytes.take 2 ∧
      (payload.drop 2).take 2 = [0x81, 0x80] ∧
      (payload.drop 6).take 2 = [0x00, 0x01] ∧
      (payload.drop 12).take example_query.question.length =
        (example_query.bytes.drop 12).take example_query.question.length ∧
      (example_query.bytes.drop 12).take example_query.question.length =
        example_query.question ∧
      payload.drop (12 + example_query.question.length) = answer_record ∧
      answer_record.length = 16 :=
  ⟨by decide, dns_response_echoes_query zero_mem example_query (by decide)⟩

/-- C3, as stated, fails: the query for `captive.apple.com` has a question
section of 23 bytes and its response has 51 bytes, not 23 + 16. -/
theorem dns_response_length_counterexample :
    captive_query.valid ∧
    (dns_responder_turn zero_mem captive_query.bytes).2 = DnsResult.sent captive_response ∧
    captive_query.question.length = 23 ∧
    captive_response.length = 51 ∧
    captive_response.length ≠ captive_query.question.length + 16 := by
  decide

/-- C3, amended: for every valid query the response has as many bytes as the
twelve header bytes, the question section (from byte 12 through the end of the
class field) and sixteen more: its length is the offset at which the question
section ends, plus 16. -/
theorem dns_response_length (resp : Mem) (q : Query) (hv : q.valid) :
    ∃ payload, (dns_responder_turn resp q.bytes).2 = DnsResult.sent payload ∧
      payload.length = 12 + q.question.length + 16 := by
  refine ⟨_, turn_valid resp q hv, ?_⟩
  rw [List.length_append, List.length_append, response_header_length q.header hv.1]
  rfl

/-- Witness for C3 (amended) at the query for the root name. -/
theorem dns_response_length_witness :
    root_query.valid ∧
    ∃ payload, (dns_responder_turn zero_mem root_query.bytes).2 = DnsResult.sent payload ∧
      payload.length = 12 + root_query.question.length + 16 :=
  ⟨by decide, dns_response_length zero_mem root_query (by decide)⟩

set_option maxRecDepth 100000 in
/-- C5 fails on the code: for the datagram `overflow_datagram` of 370 bytes the
question scan goes from offset 12 to 268, 369 and 625, so the answer record is
stored from offset 630 on, outside the 600 bytes of `resp`. -/
theorem dns_answer_store_out_of_bounds :
    overflow_datagram.length = 370 ∧
    find_question_end (memcpy_req zero_mem overflow_datagram 370) 370 371 12 = some 625 ∧
    (dns_responder_turn zero_mem overflow_datagram).2 = DnsResult.fault := by
  decide

/-- C6 fails on the code: the same header-only datagram gets two different
responses after two different earlier queries, because bytes 12 to 16 of the
response are what the earlier turn left in `resp`. -/
theorem dns_response_depends_on_earlier_datagram :
    dns_responder_task zero_mem [earlier_a, header_only] =
      [DnsResult.sent (earlier_a.take 2 ++ [0x81, 0x80, 0x00, 0x01, 0x00, 0x01, 0, 0, 0, 0,
          0x00, 0xAA, 0xBB, 0xCC, 0xDD] ++ answer_bytes),
       DnsResult.sent (header_only.take 2 ++ [0x81, 0x80, 0x00, 0x00, 0x00, 0x01, 0, 0, 0, 0,
          0x00, 0xAA, 0xBB, 0xCC, 0xDD] ++ answer_bytes)] ∧
    dns_responder_task zero_mem [earlier_b, header_only] =
      [DnsResult.sent (earlier_b.take 2 ++ [0x81, 0x80, 0x00, 0x01, 0x00, 0x01, 0, 0, 0, 0,
          0x00, 0x00, 0x01, 0x00, 0x01] ++ answer_bytes),
       DnsResult.sent (header_only.take 2 ++ [0x81, 0x80, 0x00, 0x00, 0x00, 0x01, 0, 0, 0, 0,
          0x00, 0x00, 0x01, 0x00, 0x01] ++ answer_bytes)] ∧
    (dns_responder_task zero_mem [earlier_a, header_only]).getLast? ≠
      (dns_responder_task zero_mem [earlier_b, header_only]).getLast? := by
  decide

/-! ## Claims: HTTP server -/

/-- C7, as stated, fails: in the build without the catch-all routes a GET of
`/favicon.ico`, a path other than `/download`, is answered by `favicon_handler`
with status 204 and no Location header; and in the build with
`CONFIG_HTTPD_ENABLE_WILDCARD` a GET of `/other` is taken by the catch-all
route and handed to `stream_file_zip`, which streams the resource. -/
theorem get_favicon_not_redirect :
    "/favicon.ico" ≠ "/download" ∧
    httpd_uri_handler (start_webserver false) small_env http_method.HTTP_GET "/favicon.ico" =
      some no_content_response ∧
    no_content_response.status = "204 No Content" ∧
    List.lookup "Location" no_content_response.hdrs = none ∧
    httpd_uri_handler (start_webserver true) small_env http_method.HTTP_GET "/other" =
      stream_file_zip small_env fresh_req ∧
    stream_file_zip small_env fresh_req ≠ some redirect_response := by
  decide

/-- C7, amended: in the build without `CONFIG_HTTPD_ENABLE_WILDCARD`, for every
request path other than `/download` and `/favicon.ico`, a GET through the route
table of `start_webserver` (a path no route takes going to the 404 handler)
yields the redirect response: status 302, Location `/download`, an empty body.
A GET of `/favicon.ico` yields status 204 with an empty body. -/
theorem get_other_paths_redirect (env : Env) (path : String) (h1 : path ≠ "/download")
    (h2 : path ≠ "/favicon.ico") :
    (∃ r, httpd_uri_handler (start_webserver false) env http_method.HTTP_GET path = some r ∧
      r.status = "302 Found" ∧ List.lookup "Location" r.hdrs = some "/download" ∧
      r.out = [Transfer.send []]) ∧
    httpd_uri_handler (start_webserver false) env http_method.HTTP_GET "/favicon.ico" =
      some no_content_response :=
  ⟨⟨redirect_response, dispatch_plain_get env path h1 h2, by decide, by decide, by decide⟩,
    dispatch_favicon env⟩

/-- Witness for C7 (amended) at `GET /generate_204`. -/
theorem get_other_paths_redirect_witness :
    (∃ r, httpd_uri_handler (start_webserver false) small_env http_method.HTTP_GET
        "/generate_204" = some r ∧
      r.status = "302 Found" ∧ List.lookup "Location" r.hdrs = some "/download" ∧
      r.out = [Transfer.send []]) ∧
    httpd_uri_handler (start_webserver false) small_env http_method.HTTP_GET "/favicon.ico" =
      some no_content_response :=
  get_other_paths_redirect small_env "/generate_204" (by decide) (by decide)

/-- C8, as stated, fails: with a resource of three bytes that exists and no
transfer failing, `stream_file_zip` transfers no unit and no final marker when
`malloc(CHUNK)` returns `NULL`; it sends the 500 error response. -/
theorem stream_file_zip_out_of_memory :
    oom_env.file_zip = some [1, 2, 3] ∧
    (∀ k, oom_env.send_ok k = true) ∧
    stream_file_zip oom_env fresh_req = some
      { status := "500 Internal Server Error", content_type := "application/octet-stream",
        hdrs := [("Content-Disposition", "attachment; filename=\"file.zip\""),
          ("Content-Transfer-Encoding", "binary"),
          ("Cache-Control", "no-store, no-cache, must-revalidate"), ("Pragma", "no-cache")],
        out := [Transfer.send_err httpd_err_code_t.HTTPD_500_INTERNAL_SERVER_ERROR
          "out of memory"] } ∧
    (stream_file_zip oom_env fresh_req).map bytes_transferred = some 0 :=
  ⟨rfl, fun _ => rfl, by decide, by decide⟩

/-- C8, amended: for every stored resource, the empty one included, when the
resource can be opened, the transfer buffer is allocated and every transfer
succeeds, `stream_file_zip` transfers a sequence of units, each of at least 1
and at most `CHUNK` = 1460 bytes, whose concatenation is the stored resource
byte for byte, with the same length, and then one transfer of zero bytes; for
the empty resource that last transfer is the only one. -/
theorem stream_file_zip_transfers_resource (env : Env) (data : List Byte)
    (hf : env.file_zip = some data) (hm : env.malloc_ok = true)
    (hs : ∀ k, env.send_ok k = true) :
    ∃ (units : List (List Byte)) (r : httpd_req_t),
      stream_file_zip env fresh_req = some r ∧
      r.out = units.map (fun u => Transfer.send_chunk u true) ++
        [Transfer.send_chunk [] true] ∧
      (∀ u ∈ units, 1 ≤ u.length ∧ u.length ≤ 1460) ∧
      units.flatten = data ∧
      (units.map List.length).sum = data.length ∧
      (data = [] → r.out = [Transfer.send_chunk [] true]) := by
  obtain ⟨units, h1, h2, h3⟩ := stream_file_zip_ok env data hf hm hs
  refine ⟨units, _, h1, rfl, h2, h3, ?_, ?_⟩
  · rw [← h3, List.length_flatten]
  · intro hd
    have hu : units = [] := by
      cases units with
      | nil => rfl
      | cons u us =>
        have := (h2 u (List.mem_cons_self _ _)).1
        have hl : (u :: us).flatten.length = 0 := by rw [h3, hd]; rfl
        simp only [List.flatten_cons, List.length_append] at hl
        omega
    simp [hu]

/-- Witness for C8 (amended) at a resource of three bytes. -/
theorem stream_file_zip_transfers_resource_witness :
    ∃ (units : List (List Byte)) (r : httpd_req_t),
      stream_file_zip small_env fresh_req = some r ∧
      r.out = units.map (fun u => Transfer.send_chunk u true) ++
        [Transfer.send_chunk [] true] ∧
      (∀ u ∈ units, 1 ≤ u.length ∧ u.length ≤ 1460) ∧
      units.flatten = [1, 2, 3] ∧
      (units.map List.length).sum = [(1 : Byte), 2, 3].length ∧
      (([1, 2, 3] : List Byte) = [] → r.out = [Transfer.send_chunk [] true]) :=
  stream_file_zip_transfers_resource small_env [1, 2, 3] rfl rfl (fun _ => rfl)

/-- C9, as stated, fails: for the empty resource, which exists,
`download_head_handler` sets no Content-Length header at all, while the GET
transfers 0 bytes; and for a resource of three bytes whose transfers fail the
handler reports 3 while the GET transfers 0 bytes. -/
theorem head_empty_resource_no_content_length :
    empty_env.file_zip = some [] ∧
    httpd_uri_handler (start_webserver false) empty_env http_method.HTTP_HEAD "/download" =
      some (download_head_handler empty_env fresh_req) ∧
    List.lookup "Content-Length" (download_head_handler empty_env fresh_req).hdrs = none ∧
    (httpd_uri_handler (start_webserver false) empty_env http_method.HTTP_GET
      "/download").map bytes_transferred = some 0 ∧
    List.lookup "Content-Length" (download_head_handler failing_env fresh_req).hdrs =
      some "3" ∧
    (httpd_uri_handler (start_webserver false) failing_env http_method.HTTP_GET
      "/download").map bytes_transferred = some 0 := by
  decide

/-- C9, amended: for every resource that exists and is not empty, the
Content-Length that `download_head_handler` sets for `HEAD /download` is the
decimal number of bytes that `stream_file_zip` transfers for `GET /download` on
the same resource when the buffer is allocated and every transfer succeeds,
which is the size of the resource; for the empty resource the handler sets no
Content-Length header; for every resource that exists the HEAD response is
sent with an empty body. -/
theorem head_content_length_matches_get (w : Bool) (env : Env) (data : List Byte)
    (hf : env.file_zip = some data) (hm : env.malloc_ok = true)
    (hs : ∀ k, env.send_ok k = true) :
    ∃ get head,
      httpd_uri_handler (start_webserver w) env http_method.HTTP_GET "/download" = some get ∧
      httpd_uri_handler (start_webserver w) env http_method.HTTP_HEAD "/download" = some head ∧
      bytes_transferred get = data.length ∧
      head.out = [Transfer.send []] ∧
      (data ≠ [] →
        List.lookup "Content-Length" head.hdrs = some (toString (bytes_transferred get))) ∧
      (data = [] → List.lookup "Content-Length" head.hdrs = none) := by
  obtain ⟨units, h1, _, h3⟩ := stream_file_zip_ok env data hf hm hs
  have hb := bytes_transferred_units _ units
    (rfl : (⟨"200 OK", "application/octet-stream",
      [("Content-Disposition", "attachment; filename=\"file.zip\""),
        ("Content-Transfer-Encoding", "binary"),
        ("Cache-Control", "no-store, no-cache, must-revalidate"), ("Pragma", "no-cache")],
      units.map (fun u => Transfer.send_chunk u true) ++
        [Transfer.send_chunk [] true]⟩ : httpd_req_t).out = _)
  rw [h3] at hb
  refine ⟨_, _, (dispatch_download_get w env).trans h1, dispatch_download_head w env, hb, ?_, ?_,
    ?_⟩
  · simp only [download_head_handler, hf]
    split <;> rfl
  · intro hne
    have hpos : (0 : Int) < (data.length : Int) := by
      have := List.length_pos.mpr hne
      omega
    rw [hb]
    simp only [download_head_handler, hf, gt_iff_lt, hpos, if_true, int_toString_natCast]
    generalize toString data.length = s
    rfl
  · intro he
    simp only [download_head_handler, hf, he]
    rfl

/-- Witness for C9 (amended) at a resource of three bytes. -/
theorem head_content_length_matches_get_witness :
    ∃ get head,
      httpd_uri_handler (start_webserver false) small_env http_method.HTTP_GET "/download" =
        some get ∧
      httpd_uri_handler (start_webserver false) small_env http_method.HTTP_HEAD "/download" =
        some head ∧
      bytes_transferred get = [(1 : Byte), 2, 3].length ∧
      head.out = [Transfer.send []] ∧
      (([1, 2, 3] : List Byte) ≠ [] →
        List.lookup "Content-Length" head.hdrs = some (toString (bytes_transferred get))) ∧
      (([1, 2, 3] : List Byte) = [] → List.lookup "Content-Length" head.hdrs = none) :=
  head_content_length_matches_get false small_env [1, 2, 3] rfl rfl (fun _ => rfl)

/-- C10, as stated, fails: with the resource absent, a GET of `/favicon.ico`,
a path other than `/download`, yields status 204 and not the redirect; and in
the build with `CONFIG_HTTPD_ENABLE_WILDCARD` a GET of `/other` is taken by the
catch-all route and yields the 404 response. -/
theorem missing_resource_favicon_not_redirect :
    missing_env.file_zip = none ∧
    httpd_uri_handler (start_webserver false) missing_env http_method.HTTP_GET "/favicon.ico" =
      some no_content_response ∧
    no_content_response ≠ redirect_response ∧
    httpd_uri_handler (start_webserver true) missing_env http_method.HTTP_GET "/other" =
      some not_found_response := by
  decide

/-- C10, amended: when the resource is absent, GET and HEAD on `/download` both
yield the 404 response and transfer no resource bytes; in the build without
`CONFIG_HTTPD_ENABLE_WILDCARD` a GET on every path other than `/download` and
`/favicon.ico` still yields the redirect response, and a GET of `/favicon.ico`
yields status 204, neither of them not-found. -/
theorem missing_resource_behavior (w : Bool) (env : Env) (hf : env.file_zip = none)
    (path : String) (h1 : path ≠ "/download") (h2 : path ≠ "/favicon.ico") :
    httpd_uri_handler (start_webserver w) env http_method.HTTP_GET "/download" =
      some not_found_response ∧
    httpd_uri_handler (start_webserver w) env http_method.HTTP_HEAD "/download" =
      some not_found_response ∧
    not_found_response.status = "404 Not Found" ∧
    bytes_transferred not_found_response = 0 ∧
    httpd_uri_handler (start_webserver false) env http_method.HTTP_GET path =
      some redirect_response ∧
    redirect_response.status = "302 Found" ∧
    List.lookup "Location" redirect_response.hdrs = some "/download" ∧
    httpd_uri_handler (start_webserver false) env http_method.HTTP_GET "/favicon.ico" =
      some no_content_response := by
  refine ⟨?_, ?_, by decide, by decide, dispatch_plain_get env path h1 h2, by decide, by decide,
    dispatch_favicon env⟩
  · rw [dispatch_download_get]
    simp only [stream_file_zip, hf]
    rfl
  · rw [dispatch_download_head]
    simp only [download_head_handler, hf]
    rfl

/-- Witness for C10 (amended) at `GET /hotspot-detect.html` with no resource. -/
theorem missing_resource_behavior_witness :
    httpd_uri_handler (start_webserver false) missing_env http_method.HTTP_GET "/download" =
      some not_found_response ∧
    httpd_uri_handler (start_webserver false) missing_env http_method.HTTP_HEAD "/download" =
      some not_found_response ∧
    not_found_response.status = "404 Not Found" ∧
    bytes_transferred not_found_response = 0 ∧
    httpd_uri_handler (start_webserver false) missing_env http_method.HTTP_GET
      "/hotspot-detect.html" = some redirect_response ∧
    redirect_response.status = "302 Found" ∧
    List.lookup "Location" redirect_response.hdrs = some "/download" ∧
    httpd_uri_handler (start_webserver false) missing_env http_method.HTTP_GET "/favicon.ico" =
      some no_content_response :=
  missing_resource_behavior false missing_env rfl "/hotspot-detect.html" (by decide) (by decide)

end OneClick
